import Mathlib

/-!
Verification of the QuickBot task scheduler
(`src/internal/scheduler/scheduler.py`) against its design document.

Shallow embedding conventions:
* Naive Python `datetime` values are modelled as integer seconds since an
  arbitrary epoch (`DateTime := Int`).  Python `timedelta(minutes=m)` adds
  `60*m` seconds, `timedelta(hours=1)` adds `3600`, `timedelta(days=1)` adds
  `86400` (addition of a timedelta to a naive datetime is exact wall-clock
  arithmetic).  `datetime.now().date()` followed by `datetime.combine` is
  floor-to-day arithmetic on this axis.
* Python library functions the scheduler calls (`datetime.fromisoformat`,
  `datetime.isoformat`, `datetime.strptime(s, "%H:%M")`, `int(...)`,
  `json.dumps` / `json.loads`) are abstracted as fields of a `PyEnv`
  record; a parser returning `none` models the `ValueError` the Python
  function raises.  Theorems assume only the pointwise facts about these
  functions that the Python library guarantees, and witnesses instantiate
  them with concrete executable stand-ins.
* Each `datetime.now()` read becomes an explicit clock parameter.
* `self.tasks` (the in-memory registry, a dict keyed by `task_id`) is a
  list of tasks; in-place mutation of a task object referenced by the dict
  becomes an id-keyed update.  The sqlite table is a list of rows; `INSERT
  OR REPLACE` replaces the row with the same primary key.
* `asyncio.create_task` dispatch inside one poll cycle is sequentialised:
  the dispatched units are executed in selection order with the clock held
  at the cycle snapshot.  The claims settled through the cycle model are
  insensitive to the interleaving and to the exact completion clock.
-/

namespace QuickBotSched

/-- Seconds since an arbitrary epoch; stands for a naive Python `datetime`. -/
abbrev DateTime := Int

/-- Python `timedelta(minutes=m)` in seconds. -/
def minutesTD (m : Int) : Int := 60 * m

/-- Python `timedelta(hours=h)` in seconds. -/
def hoursTD (h : Int) : Int := 3600 * h

/-- Python `timedelta(days=d)` in seconds. -/
def daysTD (d : Int) : Int := 86400 * d

/-- Midnight of the calendar day containing `t`: the instant
`datetime.combine(t.date(), time())`.  Floor division by 86400. -/
def startOfDay (t : DateTime) : DateTime := 86400 * (Int.ediv t 86400)

/-- Payload dictionaries (`Dict[str, Any]`), opaque to the scheduler; the
claims only ever compare payloads for equality, so an association list of
string keys and values is enough. -/
abbrev Payload := List (String × String)

/-- Python enum `TaskStatus` from `scheduler.py`. -/
inductive TaskStatus where
  | pending
  | running
  | completed
  | failed
  | cancelled
deriving DecidableEq, Repr

/-- Python enum `ScheduleType` from `scheduler.py`. -/
inductive ScheduleType where
  | once
  | interval
  | cron
deriving DecidableEq, Repr

/-- The `.value` string of the Python enum member (used by `_save_task`). -/
def ScheduleType.value : ScheduleType → String
  | .once => "once"
  | .interval => "interval"
  | .cron => "cron"

/-- The Python enum constructor `ScheduleType(s)` (used by `_load_tasks`);
`none` models the `ValueError` raised on an unknown value. -/
def ScheduleType.ofString : String → Option ScheduleType
  | "once" => some .once
  | "interval" => some .interval
  | "cron" => some .cron
  | _ => none

/-- Abstraction of the Python library functions `scheduler.py` calls.
Each field stands for one library function; an `Option`-valued parser
returns `none` exactly when the Python function raises `ValueError`. -/
structure PyEnv where
  /-- `datetime.fromisoformat s`. -/
  fromisoformat : String → Option DateTime
  /-- `t.isoformat()`. -/
  toIsoformat : DateTime → String
  /-- `datetime.strptime(s, "%H:%M").time()`, as seconds after midnight. -/
  strptimeHM : String → Option Int
  /-- `int(s)`. -/
  parseInt : String → Option Int
  /-- `json.dumps p`. -/
  jsonDumps : Payload → String
  /-- `json.loads s`, restricted to payload-shaped documents. -/
  jsonLoads : String → Option Payload

/-- The `ScheduledTask` object of `scheduler.py` (its instance fields). -/
structure ScheduledTask where
  task_id : String
  name : String
  schedule_type : ScheduleType
  schedule_value : String
  payload : Payload
  session_id : Option String
  enabled : Bool
  status : TaskStatus
  next_run : DateTime
  last_run : Option DateTime
  run_count : Nat
deriving DecidableEq, Repr

/-- `ScheduledTask._calculate_next_run`, with the internal `datetime.now()`
read made an explicit `now` parameter.  A failed parse (`none`) takes the
`except ValueError` branch. -/
def calculate_next_run (env : PyEnv) (schedule_type : ScheduleType)
    (schedule_value : String) (now : DateTime) : DateTime :=
  match schedule_type with
  | .once =>
    match env.fromisoformat schedule_value with
    | some t => t
    | none => now + hoursTD 1
  | .interval =>
    match env.parseInt schedule_value with
    | some m => now + minutesTD m
    | none => now + hoursTD 1
  | .cron => now + hoursTD 1

/-- `ScheduledTask.__init__`: fields from the arguments, `status = PENDING`,
`next_run` from `_calculate_next_run`, `last_run = None`, `run_count = 0`. -/
def ScheduledTask.init (env : PyEnv) (task_id name : String)
    (schedule_type : ScheduleType) (schedule_value : String)
    (payload : Payload) (session_id : Option String) (enabled : Bool)
    (now : DateTime) : ScheduledTask :=
  { task_id := task_id
    name := name
    schedule_type := schedule_type
    schedule_value := schedule_value
    payload := payload
    session_id := session_id
    enabled := enabled
    status := .pending
    next_run := calculate_next_run env schedule_type schedule_value now
    last_run := none
    run_count := 0 }

/-- `ScheduledTask.update_next_run`: a `Once` task is disabled, any other
kind gets a freshly computed `next_run` (the recompute clock `now` is the
`datetime.now()` read inside `_calculate_next_run`). -/
def ScheduledTask.update_next_run (env : PyEnv) (task : ScheduledTask)
    (now : DateTime) : ScheduledTask :=
  if task.schedule_type = .once then
    { task with enabled := false }
  else
    { task with next_run := calculate_next_run env task.schedule_type task.schedule_value now }

/-- One row of the sqlite `tasks` table (the columns `_save_task` writes;
`created_at` / `updated_at` are server-side timestamps no claim reads and
are omitted).  Note the table has NO `status` column. -/
structure TaskRow where
  task_id : String
  name : String
  schedule_type : String
  schedule_value : String
  payload : String
  session_id : Option String
  enabled : Int
  next_run : String
  last_run : Option String
  run_count : Nat
deriving DecidableEq, Repr

/-- The row `Scheduler._save_task` writes for a task: enum `.value`,
JSON-serialised payload, `int(enabled)`, ISO-formatted timestamps. -/
def save_row (env : PyEnv) (task : ScheduledTask) : TaskRow :=
  { task_id := task.task_id
    name := task.name
    schedule_type := task.schedule_type.value
    schedule_value := task.schedule_value
    payload := env.jsonDumps task.payload
    session_id := task.session_id
    enabled := if task.enabled then 1 else 0
    next_run := env.toIsoformat task.next_run
    last_run := task.last_run.map env.toIsoformat
    run_count := task.run_count }

/-- Sqlite `INSERT OR REPLACE` keyed on the primary key `task_id`. -/
def upsertRow (store : List TaskRow) (row : TaskRow) : List TaskRow :=
  (store.filter (fun r => r.task_id ≠ row.task_id)) ++ [row]

/-- Reading back `row['last_run']` in `_load_tasks`:
`datetime.fromisoformat(row['last_run']) if row['last_run'] else None`;
an unparsable non-null string raises (outer `none`). -/
def loadLastRun (env : PyEnv) : Option String → Option (Option DateTime)
  | none => some none
  | some s => (env.fromisoformat s).map some

/-- The task `Scheduler._load_tasks` builds from one row: the
`ScheduledTask` constructor is called (which recomputes `next_run` and
resets `status` to `PENDING`), then `next_run`, `last_run` and `run_count`
are overwritten from the row.  Any parse failure raises (`none`). -/
def load_task (env : PyEnv) (now : DateTime) (row : TaskRow) :
    Option ScheduledTask :=
  match ScheduleType.ofString row.schedule_type with
  | none => none
  | some st =>
    match env.jsonLoads row.payload with
    | none => none
    | some p =>
      match env.fromisoformat row.next_run with
      | none => none
      | some nr =>
        match loadLastRun env row.last_run with
        | none => none
        | some lr =>
          some { ScheduledTask.init env row.task_id row.name st
                   row.schedule_value p row.session_id
                   (decide (row.enabled ≠ 0)) now with
                 next_run := nr, last_run := lr, run_count := row.run_count }

/-- `Scheduler._load_tasks` over the whole table: only rows matching
`WHERE enabled = 1` are read back. -/
def load_tasks (env : PyEnv) (now : DateTime) (store : List TaskRow) :
    Option (List ScheduledTask) :=
  (store.filter (fun r => r.enabled = 1)).mapM (load_task env now)

/-- The in-memory registry `self.tasks` (dict keyed by `task_id`). -/
abbrev Registry := List ScheduledTask

/-- In-place mutation of the task object held in `self.tasks`: every entry
carrying the task's id becomes the updated object; nothing is added or
removed. -/
def Registry.updateTask (reg : Registry) (t : ScheduledTask) : Registry :=
  reg.map (fun u => if u.task_id = t.task_id then t else u)

/-- A registered task handler: Python awaits `handler(task)`; `Except.error`
models an exception raised by the handler. -/
abbrev Handler := ScheduledTask → Except String Unit

/-- Scheduler state the claims observe: the registry `self.tasks` and the
sqlite `tasks` table. -/
structure SchedState where
  tasks : Registry
  store : List TaskRow
deriving Repr

/-- `Scheduler._execute_task`, the dispatch unit, on the task object alone:
set `status = RUNNING`; if a handler is registered, invoke it; on normal
return (or with no handler) set `status = COMPLETED`, `last_run`, and
increment `run_count`; the `except Exception` arm only sets
`status = FAILED`; the `finally` arm always runs `update_next_run`.
`completionTime` is the `datetime.now()` read on success; `recomputeTime`
the one inside the `finally` recompute.  The function is total: a raising
handler is caught at this boundary and never propagates. -/
def execute_task (env : PyEnv) (handler : Option Handler)
    (completionTime recomputeTime : DateTime) (task : ScheduledTask) :
    ScheduledTask :=
  let running := { task with status := TaskStatus.running }
  let afterTry :=
    match handler with
    | none =>
      { running with status := .completed, last_run := some completionTime,
                     run_count := running.run_count + 1 }
    | some h =>
      match h running with
      | .ok _ =>
        { running with status := .completed, last_run := some completionTime,
                       run_count := running.run_count + 1 }
      | .error _ => { running with status := .failed }
  afterTry.update_next_run env recomputeTime

/-- `Scheduler._execute_task` including its `finally: self._save_task(task)`
persistence and the registry's view of the mutated object. -/
def execute_task_state (env : PyEnv) (handler : Option Handler)
    (completionTime recomputeTime : DateTime) (task : ScheduledTask)
    (s : SchedState) : SchedState :=
  let t := execute_task env handler completionTime recomputeTime task
  { tasks := s.tasks.updateTask t, store := upsertRow s.store (save_row env t) }

/-- Due-task selection predicate of `_check_and_run_tasks`:
`task.enabled and task.next_run <= now`. -/
def isDue (now : DateTime) (t : ScheduledTask) : Bool :=
  t.enabled && decide (t.next_run ≤ now)

/-- `Scheduler._check_and_run_tasks`: snapshot `now`, select the due tasks,
dispatch each.  The concurrent units are sequentialised in selection order
with the clock held at the snapshot. -/
def check_and_run_tasks (env : PyEnv) (handler : Option Handler)
    (now : DateTime) (s : SchedState) : SchedState :=
  let tasks_to_run := s.tasks.filter (isDue now)
  tasks_to_run.foldl
    (fun st t => execute_task_state env handler now now t st) s

/-- `Scheduler.add_task` (the part visible to the claims: the constructed
task; `task_id` is the fresh uuid, `enabled=True`). -/
def add_task (env : PyEnv) (now : DateTime) (task_id name : String)
    (schedule_type : ScheduleType) (schedule_value : String)
    (payload : Payload) (session_id : Option String) : ScheduledTask :=
  ScheduledTask.init env task_id name schedule_type schedule_value payload
    session_id true now

/-- `Scheduler.parse_time`: try `datetime.fromisoformat`; failing that, try
`strptime(s, "%H:%M")` combined with today's date; otherwise raise
`ValueError(f"Invalid time format: {time_str}")`. -/
def parse_time (env : PyEnv) (now : DateTime) (time_str : String) :
    Except String DateTime :=
  match env.fromisoformat time_str with
  | some t => .ok t
  | none =>
    match env.strptimeHM time_str with
    | some timePart => .ok (startOfDay now + timePart)
    | none => .error ("Invalid time format: " ++ time_str)

/-- Python `description or "Reminder"` (an empty string is falsy). -/
def orReminder : Option String → String
  | none => "Reminder"
  | some d => if d = "" then "Reminder" else d

/-- `Scheduler.add_reminder`: parse `remind_at`; if the parsed instant is
not strictly after `now`, add one day; create a `Once` task with the
reminder payload and `schedule_value = remind_time.isoformat()`.  The
several `datetime.now()` reads of one call are modelled as the same
instant `now`.  Returns the created task (or the `parse_time` error). -/
def add_reminder (env : PyEnv) (now : DateTime) (session_id message : String)
    (remind_at : String) (description : Option String) (new_id : String) :
    Except String ScheduledTask :=
  match parse_time env now remind_at with
  | .error e => .error e
  | .ok t =>
    let remind_time := if t ≤ now then t + daysTD 1 else t
    let payload : Payload := [("type", "reminder"), ("message", message)]
    .ok (add_task env now new_id (orReminder description) .once
          (env.toIsoformat remind_time) payload (some session_id))

/-! ### Concrete executable stand-ins used by witnesses

The theorems below assume only pointwise facts about the `PyEnv` fields;
`envW` is one concrete environment on which every such fact can be
evaluated by the kernel.  Its formats are injective encodings, not the
real ISO-8601 / JSON grammars; each hypothesis is discharged at the
specific strings a witness uses. -/

/-- Value of a decimal digit character. -/
def digitValW (c : Char) : Option Nat :=
  if c.isDigit then some (c.toNat - 48) else none

/-- Decimal parse of a list of digit characters (`none` on a non-digit). -/
def parseNatW (cs : List Char) : Option Nat :=
  cs.foldl (fun acc c =>
    match acc, digitValW c with
    | some n, some d => some (10 * n + d)
    | _, _ => none) (some 0)

/-- Decimal parse of an optionally negated integer string. -/
def parseIntW (s : String) : Option Int :=
  match s.data with
  | [] => none
  | c :: cs =>
    if c = '-' then (parseNatW cs).map (fun n => -(n : Int))
    else (parseNatW (c :: cs)).map (fun n => (n : Int))

/-- Parse of `"HH:MM"` / `"H:MM"` clock strings, as seconds after
midnight; mirrors the acceptance of `strptime(s, "%H:%M")`. -/
def strptimeHMW (s : String) : Option Int :=
  match s.data with
  | [h1, h2, ':', m1, m2] =>
    match digitValW h1, digitValW h2, digitValW m1, digitValW m2 with
    | some a, some b, some c, some d =>
      let hh := 10 * a + b
      let mm := 10 * c + d
      if hh < 24 ∧ mm < 60 then some ((3600 * hh + 60 * mm : Nat) : Int)
      else none
    | _, _, _, _ => none
  | [h1, ':', m1, m2] =>
    match digitValW h1, digitValW m1, digitValW m2 with
    | some a, some c, some d =>
      let mm := 10 * c + d
      if mm < 60 then some ((3600 * a + 60 * mm : Nat) : Int) else none
    | _, _, _ => none
  | _ => none

/-- Split a character list at a separator. -/
def splitCharW (sep : Char) : List Char → List (List Char)
  | [] => [[]]
  | c :: cs =>
    let r := splitCharW sep cs
    if c = sep then [] :: r
    else
      match r with
      | [] => [[c]]
      | g :: gs => (c :: g) :: gs

/-- Serialisation of a payload used by the witness environment. -/
def dumpsW (p : Payload) : String :=
  p.foldl (fun acc kv => acc ++ "|" ++ kv.1 ++ "=" ++ kv.2) ""

/-- Parse of one `key=value` group. -/
def parsePairW (g : List Char) : Option (String × String) :=
  match splitCharW '=' g with
  | [k, v] => some (String.mk k, String.mk v)
  | _ => none

/-- Inverse of `dumpsW` on payloads whose keys and values avoid the
separator characters. -/
def loadsW (s : String) : Option Payload :=
  match s.data with
  | [] => some []
  | '|' :: rest => (splitCharW '|' rest).mapM parsePairW
  | _ => none

/-- The concrete environment all witnesses run in: timestamps are printed
and parsed as plain decimal second counts. -/
def envW : PyEnv :=
  { fromisoformat := parseIntW
    toIsoformat := fun t => toString t
    strptimeHM := strptimeHMW
    parseInt := parseIntW
    jsonDumps := dumpsW
    jsonLoads := loadsW }

/-- A handler that raises on every invocation. -/
def hFail : Handler := fun _ => Except.error "boom"

/-! ### Helper lemmas about the dispatch unit -/

theorem update_next_run_status (env : PyEnv) (t : ScheduledTask) (now : DateTime) :
    (t.update_next_run env now).status = t.status := by
  unfold ScheduledTask.update_next_run; split <;> rfl

theorem update_next_run_last_run (env : PyEnv) (t : ScheduledTask) (now : DateTime) :
    (t.update_next_run env now).last_run = t.last_run := by
  unfold ScheduledTask.update_next_run; split <;> rfl

theorem update_next_run_run_count (env : PyEnv) (t : ScheduledTask) (now : DateTime) :
    (t.update_next_run env now).run_count = t.run_count := by
  unfold ScheduledTask.update_next_run; split <;> rfl

theorem update_next_run_task_id (env : PyEnv) (t : ScheduledTask) (now : DateTime) :
    (t.update_next_run env now).task_id = t.task_id := by
  unfold ScheduledTask.update_next_run; split <;> rfl

theorem update_next_run_enabled (env : PyEnv) (t : ScheduledTask) (now : DateTime) :
    (t.update_next_run env now).enabled
      = if t.schedule_type = .once then false else t.enabled := by
  unfold ScheduledTask.update_next_run; split <;> simp_all

theorem update_next_run_next_run (env : PyEnv) (t : ScheduledTask) (now : DateTime) :
    (t.update_next_run env now).next_run
      = if t.schedule_type = .once then t.next_run
        else calculate_next_run env t.schedule_type t.schedule_value now := by
  unfold ScheduledTask.update_next_run; split <;> simp_all

/-- Dispatch with no registered handler, as one record update. -/
theorem execute_task_eq_none (env : PyEnv) (ct rt : DateTime) (task : ScheduledTask) :
    execute_task env none ct rt task
      = ScheduledTask.update_next_run env
          { task with status := .completed, last_run := some ct,
                      run_count := task.run_count + 1 } rt := rfl

/-- Dispatch whose handler invocation returns normally. -/
theorem execute_task_eq_ok (env : PyEnv) (h : Handler) (ct rt : DateTime)
    (task : ScheduledTask) (u : Unit)
    (hok : h { task with status := .running } = .ok u) :
    execute_task env (some h) ct rt task
      = ScheduledTask.update_next_run env
          { task with status := .completed, last_run := some ct,
                      run_count := task.run_count + 1 } rt := by
  simp only [execute_task, hok]

/-- Dispatch whose handler invocation raises. -/
theorem execute_task_eq_err (env : PyEnv) (h : Handler) (e : String)
    (ct rt : DateTime) (task : ScheduledTask)
    (he : h { task with status := .running } = .error e) :
    execute_task env (some h) ct rt task
      = ScheduledTask.update_next_run env { task with status := .failed } rt := by
  simp only [execute_task, he]

theorem execute_task_task_id (env : PyEnv) (hdl : Option Handler)
    (ct rt : DateTime) (task : ScheduledTask) :
    (execute_task env hdl ct rt task).task_id = task.task_id := by
  cases hdl with
  | none => rw [execute_task_eq_none, update_next_run_task_id]
  | some h =>
    cases hres : h { task with status := .running } with
    | ok u => rw [execute_task_eq_ok env h ct rt task u hres,
                  update_next_run_task_id]
    | error e => rw [execute_task_eq_err env h e ct rt task hres,
                     update_next_run_task_id]

theorem execute_task_enabled_of_once (env : PyEnv) (hdl : Option Handler)
    (ct rt : DateTime) (task : ScheduledTask)
    (honce : task.schedule_type = .once) :
    (execute_task env hdl ct rt task).enabled = false := by
  cases hdl with
  | none => rw [execute_task_eq_none, update_next_run_enabled]; simp [honce]
  | some h =>
    cases hres : h { task with status := .running } with
    | ok u => rw [execute_task_eq_ok env h ct rt task u hres,
                  update_next_run_enabled]; simp [honce]
    | error e => rw [execute_task_eq_err env h e ct rt task hres,
                     update_next_run_enabled]; simp [honce]

/-- Presence of an entry with a given id in the registry. -/
def hasTaskId (reg : Registry) (i : String) : Prop :=
  ∃ t ∈ reg, t.task_id = i

/-! ### Claim theorems -/

/-- C9: dispatching a due task when no handler has been registered
(`self._task_handler is None`) records a successful outcome: `status`
becomes `Completed`, `lastRun` is set to the completion clock, `runCount`
is incremented, and the result coincides with dispatching under a handler
that returns normally. -/
theorem C9_no_handler_records_success (env : PyEnv) (ct rt : DateTime)
    (task : ScheduledTask) :
    (execute_task env none ct rt task).status = TaskStatus.completed ∧
    (execute_task env none ct rt task).last_run = some ct ∧
    (execute_task env none ct rt task).run_count = task.run_count + 1 ∧
    execute_task env none ct rt task
      = execute_task env (some (fun _ => Except.ok ())) ct rt task := by
  refine ⟨?_, ?_, ?_, rfl⟩
  · rw [execute_task_eq_none, update_next_run_status]
  · rw [execute_task_eq_none, update_next_run_last_run]
  · rw [execute_task_eq_none, update_next_run_run_count]

/-- C4: a `Once` task is retired after a single dispatch attempt, whatever
the handler outcome: `enabled = false`, `status` is `Completed` or
`Failed`, and the task is never again selected as due at any later poll
(`isDue` is the loop's selection predicate). -/
theorem C4_once_fires_at_most_once (env : PyEnv) (hdl : Option Handler)
    (ct rt : DateTime) (task : ScheduledTask)
    (honce : task.schedule_type = .once) :
    (execute_task env hdl ct rt task).enabled = false ∧
    ((execute_task env hdl ct rt task).status = TaskStatus.completed ∨
     (execute_task env hdl ct rt task).status = TaskStatus.failed) ∧
    ∀ now', isDue now' (execute_task env hdl ct rt task) = false := by
  have hen : (execute_task env hdl ct rt task).enabled = false :=
    execute_task_enabled_of_once env hdl ct rt task honce
  refine ⟨hen, ?_, fun now' => by simp [isDue, hen]⟩
  cases hdl with
  | none => left; rw [execute_task_eq_none, update_next_run_status]
  | some h =>
    cases hres : h { task with status := .running } with
    | ok u =>
      left; rw [execute_task_eq_ok env h ct rt task u hres, update_next_run_status]
    | error e =>
      right; rw [execute_task_eq_err env h e ct rt task hres, update_next_run_status]

/-- C4 witness: a concrete `Once` task dispatched once with no handler. -/
def taskC4 : ScheduledTask :=
  ScheduledTask.init envW "t4" "once" .once "50" [] none true 0

theorem C4_witness :
    (execute_task envW none 60 60 taskC4).enabled = false ∧
    ((execute_task envW none 60 60 taskC4).status = TaskStatus.completed ∨
     (execute_task envW none 60 60 taskC4).status = TaskStatus.failed) ∧
    isDue 1000 (execute_task envW none 60 60 taskC4) = false :=
  ⟨(C4_once_fires_at_most_once envW none 60 60 taskC4 rfl).1,
   (C4_once_fires_at_most_once envW none 60 60 taskC4 rfl).2.1,
   (C4_once_fires_at_most_once envW none 60 60 taskC4 rfl).2.2 1000⟩

/-- C5 counterexample: the expression `"0"` parses as an integer, so the
claim covers this task, yet after a dispatch at time 0 with recompute at
time 0 the fresh `nextRun` is 0, which is not strictly later than the
dispatch time. -/
def taskC5z : ScheduledTask :=
  ScheduledTask.init envW "t5z" "zero" .interval "0" [] none true 0

theorem C5_counterexample :
    taskC5z.schedule_type = ScheduleType.interval ∧
    envW.parseInt taskC5z.schedule_value = some 0 ∧
    isDue 0 taskC5z = true ∧
    (execute_task envW none 0 0 taskC5z).next_run = 0 ∧
    ¬ (0 < (execute_task envW none 0 0 taskC5z).next_run) := by decide

/-- C5 (amended): for an `Interval` task whose expression parses as a
POSITIVE integer `m`, after any dispatch attempt — whatever the handler
outcome — the fresh `nextRun` equals the recompute clock plus `m` minutes
and is strictly later than the dispatch time (the recompute clock being at
or after the dispatch time). -/
theorem C5_interval_recompute_fresh (env : PyEnv) (hdl : Option Handler)
    (d ct rt : DateTime) (task : ScheduledTask) (m : Int)
    (hk : task.schedule_type = .interval)
    (hp : env.parseInt task.schedule_value = some m)
    (hm : 1 ≤ m) (hdr : d ≤ rt) :
    (execute_task env hdl ct rt task).next_run = rt + minutesTD m ∧
    d < (execute_task env hdl ct rt task).next_run := by
  have hne : ¬ task.schedule_type = ScheduleType.once := by rw [hk]; simp
  have hnr : (execute_task env hdl ct rt task).next_run = rt + minutesTD m := by
    cases hdl with
    | none =>
      rw [execute_task_eq_none, update_next_run_next_run]
      simp [calculate_next_run, hk, hp]
    | some h =>
      cases hres : h { task with status := .running } with
      | ok u =>
        rw [execute_task_eq_ok env h ct rt task u hres, update_next_run_next_run]
        simp [calculate_next_run, hk, hp]
      | error e =>
        rw [execute_task_eq_err env h e ct rt task hres, update_next_run_next_run]
        simp [calculate_next_run, hk, hp]
  refine ⟨hnr, ?_⟩
  rw [hnr]
  simp only [minutesTD]
  linarith

/-- C5 witness: a concrete `Interval` task with a 2-minute period,
dispatched at time 7 with recompute at time 9 under a raising handler. -/
def taskC5w : ScheduledTask :=
  ScheduledTask.init envW "t5w" "iv" .interval "2" [] none true 0

theorem C5_witness :
    (execute_task envW (some hFail) 7 9 taskC5w).next_run = 9 + minutesTD 2 ∧
    7 < (execute_task envW (some hFail) 7 9 taskC5w).next_run :=
  C5_interval_recompute_fresh envW (some hFail) 7 7 9 taskC5w 2 rfl (by decide)
    (by decide) (by decide)

/-- C1 counterexample: an `Interval` task whose handler raises on every
invocation, dispatched while due in two successive cycles.  Both attempts
record `status = Failed`, but `runCount` stays 0 (not 2) and `lastRun` is
never set: the `except` arm of `_execute_task` only sets the status, and
the `lastRun`/`runCount` updates sit in the `try` arm after the handler
call, so they are skipped on failure. -/
def taskC1 : ScheduledTask :=
  ScheduledTask.init envW "t1" "failing" .interval "1" [] none true 0

def taskC1a : ScheduledTask := execute_task envW (some hFail) 60 60 taskC1

def taskC1b : ScheduledTask := execute_task envW (some hFail) 120 120 taskC1a

theorem C1_counterexample :
    envW.parseInt taskC1.schedule_value = some 1 ∧
    isDue 60 taskC1 = true ∧ isDue 120 taskC1a = true ∧
    taskC1a.status = TaskStatus.failed ∧ taskC1b.status = TaskStatus.failed ∧
    taskC1b.last_run = none ∧ taskC1b.run_count = 0 ∧
    ¬ taskC1b.run_count = 2 := by decide

/-- C1 (amended): when the handler invocation raises, the dispatch unit
sets `status = Failed` but does NOT update `lastRun` or `runCount`; in
particular two failing dispatches leave `runCount` at its prior value. -/
theorem C1_failure_skips_lastRun_runCount (env : PyEnv) (h : Handler)
    (e : String) (ct rt : DateTime) (task : ScheduledTask)
    (he : h { task with status := TaskStatus.running } = .error e) :
    (execute_task env (some h) ct rt task).status = TaskStatus.failed ∧
    (execute_task env (some h) ct rt task).last_run = task.last_run ∧
    (execute_task env (some h) ct rt task).run_count = task.run_count := by
  rw [execute_task_eq_err env h e ct rt task he]
  exact ⟨by rw [update_next_run_status], by rw [update_next_run_last_run],
         by rw [update_next_run_run_count]⟩

theorem C1_witness :
    (execute_task envW (some hFail) 0 0 taskC1).status = TaskStatus.failed ∧
    (execute_task envW (some hFail) 0 0 taskC1).last_run = taskC1.last_run ∧
    (execute_task envW (some hFail) 0 0 taskC1).run_count = taskC1.run_count :=
  C1_failure_skips_lastRun_runCount envW hFail "boom" 0 0 taskC1 rfl

/-- The Schedule Calculator exactly as the spec's words describe it
(section 4.2): `Once` parses the expression as an absolute timestamp with
a `now + 1 hour` fallback when unparsable; `Interval` parses the
expression as an integer number of minutes, next run `now + minutes`,
with the same fallback; `Cron` always resolves to `now + 1 hour`
regardless of the expression content. -/
def schedule_calculator_spec (env : PyEnv) (kind : ScheduleType)
    (expression : String) (now : DateTime) : DateTime :=
  match kind with
  | .once => (env.fromisoformat expression).getD (now + hoursTD 1)
  | .interval =>
    ((env.parseInt expression).map (fun m => now + minutesTD m)).getD
      (now + hoursTD 1)
  | .cron => now + hoursTD 1

/-- C6: the code's `_calculate_next_run` computes exactly what the spec's
description of the Schedule Calculator prescribes, for every schedule
kind, expression and current time. -/
theorem C6_calculator_matches_spec (env : PyEnv) (kind : ScheduleType)
    (expression : String) (now : DateTime) :
    calculate_next_run env kind expression now
      = schedule_calculator_spec env kind expression now := by
  cases kind with
  | once =>
    simp only [calculate_next_run, schedule_calculator_spec]
    cases env.fromisoformat expression <;> simp
  | interval =>
    simp only [calculate_next_run, schedule_calculator_spec]
    cases env.parseInt expression <;> simp
  | cron => rfl

/-- C7: `add_reminder` on an `"HH:MM"` string (one `fromisoformat` cannot
parse but `strptime "%H:%M"` can, yielding `tod` seconds after midnight)
creates a `Once` reminder task whose `nextRun` is today's `HH:MM` when
that instant is still strictly in the future, and tomorrow's `HH:MM`
when it is not.  `hiso` is the ISO round-trip fact for the stored
timestamp, which Python's `datetime` guarantees. -/
theorem C7_reminder_hhmm (env : PyEnv) (now : DateTime)
    (sid msg ra : String) (desc : Option String) (nid : String) (tod : Int)
    (h1 : env.fromisoformat ra = none)
    (h2 : env.strptimeHM ra = some tod)
    (hiso : env.fromisoformat (env.toIsoformat
        (if startOfDay now + tod ≤ now then startOfDay now + tod + daysTD 1
         else startOfDay now + tod))
      = some (if startOfDay now + tod ≤ now then startOfDay now + tod + daysTD 1
         else startOfDay now + tod)) :
    ∃ task, add_reminder env now sid msg ra desc nid = Except.ok task ∧
      task.schedule_type = ScheduleType.once ∧
      task.payload = [("type", "reminder"), ("message", msg)] ∧
      (now < startOfDay now + tod → task.next_run = startOfDay now + tod) ∧
      (startOfDay now + tod ≤ now →
        task.next_run = startOfDay now + tod + daysTD 1) := by
  simp only [add_reminder, parse_time, h1, h2]
  refine ⟨_, rfl, rfl, rfl, ?_, ?_⟩
  · intro hfut
    have hnle : ¬ startOfDay now + tod ≤ now := not_le.mpr hfut
    simp only [add_task, ScheduledTask.init, calculate_next_run, hnle,
      if_false] at hiso ⊢
    rw [hiso]
  · intro hpast
    simp only [add_task, ScheduledTask.init, calculate_next_run, hpast,
      if_true] at hiso ⊢
    rw [hiso]

/-- C7 witness: the spec's concrete scenario B — `addReminder` with
`"10:00"` at simulated `now = 11:00` of day 0 (second 39600) yields a
`Once` task with `nextRun = 122400`, i.e. 10:00 of the next calendar
day. -/
theorem C7_witness :
    ∃ task, add_reminder envW 39600 "sess" "Check mail" "10:00" none "id1"
        = Except.ok task ∧
      task.schedule_type = ScheduleType.once ∧
      task.next_run = 122400 := by
  obtain ⟨task, hok, honce, _, _, hroll⟩ :=
    C7_reminder_hhmm envW 39600 "sess" "Check mail" "10:00" none "id1" 36000
      (by decide) (by decide) (by decide)
  refine ⟨task, hok, honce, ?_⟩
  rw [hroll (by decide)]; decide

/-- C10: `add_reminder` applies its one-day rollover to every parsed
`remind_at` not strictly in the future, including full timestamps parsed
by `fromisoformat`, and adds exactly one day exactly once: for a parsed
timestamp `t ≤ now` the created task's `nextRun` is `t + 1 day`, which is
still in the past whenever `t` lies more than one day before `now`. -/
theorem C10_full_timestamp_rollover (env : PyEnv) (now t : DateTime)
    (sid msg ra : String) (desc : Option String) (nid : String)
    (h1 : env.fromisoformat ra = some t)
    (h2 : t ≤ now)
    (hiso : env.fromisoformat (env.toIsoformat (t + daysTD 1))
      = some (t + daysTD 1)) :
    ∃ task, add_reminder env now sid msg ra desc nid = Except.ok task ∧
      task.next_run = t + daysTD 1 ∧
      (86400 < now - t → task.next_run < now) := by
  simp only [add_reminder, parse_time, h1, if_pos h2]
  refine ⟨_, rfl, ?_, ?_⟩
  · simp only [add_task, ScheduledTask.init, calculate_next_run, hiso]
  · intro hfar
    simp only [add_task, ScheduledTask.init, calculate_next_run, hiso]
    simp only [daysTD]
    linarith

/-- C10 witness: a full timestamp 500 seconds after the epoch, submitted
at `now = 100000` (more than one day later): the reminder is created with
`nextRun = 86900`, which is still in the past. -/
theorem C10_witness :
    ∃ task, add_reminder envW 100000 "s" "m" "500" none "id2"
        = Except.ok task ∧
      task.next_run = 500 + daysTD 1 ∧ task.next_run < 100000 := by
  obtain ⟨task, hok, hnr, hpast⟩ :=
    C10_full_timestamp_rollover envW 100000 500 "s" "m" "500" none "id2"
      (by decide) (by decide) (by decide)
  exact ⟨task, hok, hnr, hpast (by decide)⟩

theorem ofString_value (st : ScheduleType) :
    ScheduleType.ofString st.value = some st := by
  cases st <;> rfl

/-- C3 counterexample: a task whose most recent attempt completed
(`status = Completed`).  Upserting it and reloading the row yields a task
whose `status` is `Pending`: the `tasks` table has no `status` column and
the `ScheduledTask` constructor run by `_load_tasks` always starts at
`PENDING`, so `status` is not reproduced. -/
def taskC3 : ScheduledTask :=
  { task_id := "t3", name := "n", schedule_type := .interval,
    schedule_value := "5", payload := [("a", "b")], session_id := some "s",
    enabled := true, status := .completed, next_run := 100,
    last_run := some 50, run_count := 3 }

theorem C3_counterexample :
    taskC3.status = TaskStatus.completed ∧
    (load_task envW 0 (save_row envW taskC3)).map ScheduledTask.status
      = some TaskStatus.pending := by decide

/-- C3 (amended): for a task with `enabled = true` (disabled rows are not
reloaded at all), upsert followed by reload reproduces every field —
id, name, scheduleKind, scheduleExpression, payload contents, sessionId,
enabled, nextRun, lastRun, runCount — EXCEPT `status`, which always comes
back as `Pending`.  The serialisation hypotheses are the round-trip facts
Python's `json` and `datetime` modules guarantee. -/
theorem C3_roundtrip_modulo_status (env : PyEnv) (now : DateTime)
    (task : ScheduledTask) (hen : task.enabled = true)
    (hp : env.jsonLoads (env.jsonDumps task.payload) = some task.payload)
    (hnr : env.fromisoformat (env.toIsoformat task.next_run)
      = some task.next_run)
    (hlr : ∀ t, task.last_run = some t →
      env.fromisoformat (env.toIsoformat t) = some t) :
    load_task env now (save_row env task)
      = some { task with status := TaskStatus.pending } := by
  have hlr2 : loadLastRun env (task.last_run.map env.toIsoformat)
      = some task.last_run := by
    cases hc : task.last_run with
    | none => rfl
    | some t => simp [loadLastRun, hlr t hc]
  simp only [load_task, save_row, ofString_value, hp, hnr, hlr2]
  simp [ScheduledTask.init, hen]

/-- C3 witness: a concrete enabled task round-tripped through the store,
losing only its `Failed` status. -/
def taskC3w : ScheduledTask :=
  { task_id := "t3w", name := "w", schedule_type := .once,
    schedule_value := "40", payload := [("x", "y"), ("z", "w")],
    session_id := none, enabled := true, status := .failed, next_run := 40,
    last_run := some 7, run_count := 2 }

theorem C3_witness :
    load_task envW 11 (save_row envW taskC3w)
      = some { taskC3w with status := TaskStatus.pending } :=
  C3_roundtrip_modulo_status envW 11 taskC3w rfl (by decide) (by decide)
    (by intro t ht; rw [Option.some_inj.mp ht.symm] at *; decide)

/-- C2 counterexample: a `Once` task, present in the Registry and in the
Store, dispatched once.  Afterwards it is still in the Registry (with
`enabled = false`), while its Store row has `enabled = 0`: `_execute_task`
never deletes the entry from `self.tasks`, so the retired task is NOT
removed from the Registry and the Registry is no longer a subset of the
Store's enabled rows. -/
def taskC2 : ScheduledTask :=
  ScheduledTask.init envW "t2" "oncetask" .once "100" [("k", "v")]
    (some "sess") true 0

def stateC2 : SchedState :=
  { tasks := [taskC2], store := [save_row envW taskC2] }

def stateC2x : SchedState := execute_task_state envW none 100 100 taskC2 stateC2

theorem C2_counterexample :
    (∃ u ∈ stateC2x.tasks, u.task_id = "t2" ∧ u.enabled = false) ∧
    (∃ r ∈ stateC2x.store, r.task_id = "t2" ∧ r.enabled = 0) ∧
    stateC2x.tasks.length = 1 := by decide

/-- C2 (amended): after a `Once` task's dispatch, `enabled = false` is
recorded consistently in both the Registry entry and the Store row — the
two agree — but the retired task REMAINS in the Registry (the registry's
size is unchanged); it is merely never again selected for dispatch, since
selection requires `enabled`.  The Registry therefore mirrors Store rows
by value but is not a subset of the Store's `enabled` rows. -/
theorem C2_once_retirement_disables_in_place (env : PyEnv)
    (hdl : Option Handler) (ct rt : DateTime) (task : ScheduledTask)
    (s : SchedState) (honce : task.schedule_type = .once)
    (hmem : hasTaskId s.tasks task.task_id) :
    (∃ u ∈ (execute_task_state env hdl ct rt task s).tasks,
        u.task_id = task.task_id ∧ u.enabled = false) ∧
    (∀ u ∈ (execute_task_state env hdl ct rt task s).tasks,
        u.task_id = task.task_id → ∀ now', isDue now' u = false) ∧
    (∀ r ∈ (execute_task_state env hdl ct rt task s).store,
        r.task_id = task.task_id → r.enabled = 0) ∧
    (execute_task_state env hdl ct rt task s).tasks.length
      = s.tasks.length := by
  have htid : (execute_task env hdl ct rt task).task_id = task.task_id :=
    execute_task_task_id env hdl ct rt task
  have hen : (execute_task env hdl ct rt task).enabled = false :=
    execute_task_enabled_of_once env hdl ct rt task honce
  refine ⟨?_, ?_, ?_, ?_⟩
  · obtain ⟨x, hx, hxid⟩ := hmem
    have hc : x.task_id = (execute_task env hdl ct rt task).task_id := by
      rw [hxid, htid]
    refine ⟨execute_task env hdl ct rt task, ?_, htid, hen⟩
    simp only [execute_task_state, Registry.updateTask]
    have hmm := List.mem_map_of_mem
      (fun u => if u.task_id = (execute_task env hdl ct rt task).task_id
                then execute_task env hdl ct rt task else u) hx
    simpa [hc] using hmm
  · intro u hu huid now'
    simp only [execute_task_state, Registry.updateTask] at hu
    obtain ⟨x, hx, hfx⟩ := List.mem_map.mp hu
    by_cases hc : x.task_id = (execute_task env hdl ct rt task).task_id
    · rw [if_pos hc] at hfx
      rw [← hfx]
      simp [isDue, hen]
    · rw [if_neg hc] at hfx
      rw [← hfx] at huid
      exact absurd (huid.trans htid.symm) hc
  · intro r hr hrid
    simp only [execute_task_state, upsertRow] at hr
    rcases List.mem_append.mp hr with hf | hl
    · have hne := (List.mem_filter.mp hf).2
      simp only [save_row, ne_eq, decide_not, Bool.not_eq_eq_eq_not,
        Bool.not_true, decide_eq_false_iff_not] at hne
      exact absurd (hrid.trans htid.symm) hne
    · have hrow : r = save_row env (execute_task env hdl ct rt task) := by
        simpa using hl
      rw [hrow]
      simp [save_row, hen]
  · simp only [execute_task_state, Registry.updateTask, List.length_map]

theorem C2_witness :
    (∃ u ∈ (execute_task_state envW none 100 100 taskC2 stateC2).tasks,
        u.task_id = taskC2.task_id ∧ u.enabled = false) ∧
    (∀ u ∈ (execute_task_state envW none 100 100 taskC2 stateC2).tasks,
        u.task_id = taskC2.task_id → ∀ now', isDue now' u = false) ∧
    (∀ r ∈ (execute_task_state envW none 100 100 taskC2 stateC2).store,
        r.task_id = taskC2.task_id → r.enabled = 0) ∧
    (execute_task_state envW none 100 100 taskC2 stateC2).tasks.length
      = stateC2.tasks.length :=
  C2_once_retirement_disables_in_place envW none 100 100 taskC2 stateC2 rfl
    (by exact ⟨taskC2, by decide, rfl⟩)

/-! ### Fold invariants for one poll cycle, used for the error-containment
claim -/

/-- Presence of an entry with a given id, recorded as `Failed`. -/
def hasFailedTask (reg : Registry) (i : String) : Prop :=
  ∃ t ∈ reg, t.task_id = i ∧ t.status = TaskStatus.failed

theorem execute_task_status_of_error (env : PyEnv) (h : Handler) (e : String)
    (ct rt : DateTime) (task : ScheduledTask)
    (he : h { task with status := TaskStatus.running } = .error e) :
    (execute_task env (some h) ct rt task).status = TaskStatus.failed := by
  rw [execute_task_eq_err env h e ct rt task he, update_next_run_status]

theorem execute_task_state_tasks (env : PyEnv) (hdl : Option Handler)
    (ct rt : DateTime) (task : ScheduledTask) (s : SchedState) :
    (execute_task_state env hdl ct rt task s).tasks
      = s.tasks.updateTask (execute_task env hdl ct rt task) := rfl

theorem mem_updateTask_of_mem (reg : Registry) (u x : ScheduledTask)
    (hx : x ∈ reg) :
    (if x.task_id = u.task_id then u else x) ∈ reg.updateTask u :=
  List.mem_map_of_mem _ hx

theorem mem_updateTask_pos {reg : Registry} {u x : ScheduledTask}
    (hx : x ∈ reg) (hc : x.task_id = u.task_id) : u ∈ reg.updateTask u := by
  have hmm := mem_updateTask_of_mem reg u x hx
  rwa [if_pos hc] at hmm

theorem mem_updateTask_neg {reg : Registry} {u x : ScheduledTask}
    (hx : x ∈ reg) (hc : ¬ x.task_id = u.task_id) : x ∈ reg.updateTask u := by
  have hmm := mem_updateTask_of_mem reg u x hx
  rwa [if_neg hc] at hmm

theorem updateTask_hasTaskId (reg : Registry) (u : ScheduledTask) (i : String)
    (hq : hasTaskId reg i) : hasTaskId (reg.updateTask u) i := by
  obtain ⟨x, hx, hxid⟩ := hq
  by_cases hc : x.task_id = u.task_id
  · exact ⟨u, mem_updateTask_pos hx hc, by rw [← hc]; exact hxid⟩
  · exact ⟨x, mem_updateTask_neg hx hc, hxid⟩

theorem updateTask_hasFailedTask (reg : Registry) (u : ScheduledTask)
    (i : String) (hu : u.status = TaskStatus.failed)
    (hp : hasFailedTask reg i) : hasFailedTask (reg.updateTask u) i := by
  obtain ⟨x, hx, hxid, hxs⟩ := hp
  by_cases hc : x.task_id = u.task_id
  · exact ⟨u, mem_updateTask_pos hx hc, by rw [← hc]; exact hxid, hu⟩
  · exact ⟨x, mem_updateTask_neg hx hc, hxid, hxs⟩

theorem updateTask_establish_failed (reg : Registry) (u : ScheduledTask)
    (i : String) (hu : u.status = TaskStatus.failed) (hui : u.task_id = i)
    (hq : hasTaskId reg i) : hasFailedTask (reg.updateTask u) i := by
  obtain ⟨x, hx, hxid⟩ := hq
  exact ⟨u, mem_updateTask_pos hx (by rw [hxid, hui]), hui, hu⟩

theorem foldl_exec_preserves_failed (env : PyEnv) (h : Handler)
    (herr : ∀ t, ∃ e, h t = Except.error e) (now : DateTime) (i : String) :
    ∀ (l : List ScheduledTask) (s : SchedState),
      hasFailedTask s.tasks i →
      hasFailedTask
        (l.foldl (fun st t => execute_task_state env (some h) now now t st)
          s).tasks i := by
  intro l
  induction l with
  | nil => intro s hs; exact hs
  | cons a l ih =>
    intro s hs
    rw [List.foldl_cons]
    apply ih
    rw [execute_task_state_tasks]
    obtain ⟨e, he⟩ := herr { a with status := TaskStatus.running }
    exact updateTask_hasFailedTask _ _ _
      (execute_task_status_of_error env h e now now a he) hs

theorem foldl_exec_establishes_failed (env : PyEnv) (h : Handler)
    (herr : ∀ t, ∃ e, h t = Except.error e) (now : DateTime) (i : String) :
    ∀ (l : List ScheduledTask) (s : SchedState),
      hasTaskId s.tasks i → (∃ t ∈ l, t.task_id = i) →
      hasFailedTask
        (l.foldl (fun st t => execute_task_state env (some h) now now t st)
          s).tasks i := by
  intro l
  induction l with
  | nil =>
    intro s _ hl
    obtain ⟨t, ht, _⟩ := hl
    cases ht
  | cons a l ih =>
    intro s hq hl
    rw [List.foldl_cons]
    obtain ⟨e, he⟩ := herr { a with status := TaskStatus.running }
    have hfa : (execute_task env (some h) now now a).status
        = TaskStatus.failed := execute_task_status_of_error env h e now now a he
    rcases hl with ⟨t, ht, htid⟩
    rcases List.mem_cons.mp ht with rfl | htl
    · rw [← htid]
      apply foldl_exec_preserves_failed env h herr now t.task_id l
      rw [execute_task_state_tasks]
      exact updateTask_establish_failed _ _ _ hfa
        (execute_task_task_id env (some h) now now t)
        (by rw [htid]; exact hq)
    · apply ih
      · rw [execute_task_state_tasks]
        exact updateTask_hasTaskId _ _ _ hq
      · exact ⟨t, htl, htid⟩

/-- C8: errors raised by the handler are caught at the dispatch boundary.
The dispatch unit is a total function (the raise cannot propagate), it
records the failure as `status = Failed`, and a whole poll cycle under an
always-raising handler still dispatches EVERY due task of the registry —
each one ends the cycle recorded as `Failed` — so neither the loop nor the
dispatch of other tasks is terminated. -/
theorem C8_handler_error_contained (env : PyEnv) (h : Handler)
    (herr : ∀ t, ∃ e, h t = Except.error e) (ct rt : DateTime)
    (task : ScheduledTask) (now : DateTime) (s : SchedState) :
    (execute_task env (some h) ct rt task).status = TaskStatus.failed ∧
    ∀ t ∈ s.tasks, isDue now t = true →
      hasFailedTask (check_and_run_tasks env (some h) now s).tasks
        t.task_id := by
  constructor
  · obtain ⟨e, he⟩ := herr { task with status := TaskStatus.running }
    exact execute_task_status_of_error env h e ct rt task he
  · intro t ht hdue
    exact foldl_exec_establishes_failed env h herr now t.task_id
      (s.tasks.filter (isDue now)) s ⟨t, ht, rfl⟩
      ⟨t, List.mem_filter.mpr ⟨ht, hdue⟩, rfl⟩

/-- C8 witness: one concrete due task under the always-raising handler. -/
def taskC8 : ScheduledTask :=
  { task_id := "t8", name := "n8", schedule_type := .interval,
    schedule_value := "1", payload := [], session_id := none,
    enabled := true, status := .pending, next_run := 5, last_run := none,
    run_count := 0 }

def stateC8 : SchedState :=
  { tasks := [taskC8], store := [save_row envW taskC8] }

theorem C8_witness :
    (execute_task envW (some hFail) 5 5 taskC8).status = TaskStatus.failed ∧
    hasFailedTask (check_and_run_tasks envW (some hFail) 10 stateC8).tasks
      "t8" :=
  ⟨(C8_handler_error_contained envW hFail (fun t => ⟨"boom", rfl⟩) 5 5 taskC8
      10 stateC8).1,
   (C8_handler_error_contained envW hFail (fun t => ⟨"boom", rfl⟩) 5 5 taskC8
      10 stateC8).2 taskC8 (by decide) (by decide)⟩

end QuickBotSched
